import Mathlib

/-!
Verification of the SRI electronic-invoicing core of REPUESTO-CONTROL-EC.

The Python sources under repuestocontrol/core are embedded shallowly:
pure helpers become Lean functions over String/Nat/Rat, the Django-backed
counter becomes explicit state passing, exceptions become Except values,
and the wall-clock fraction that feeds the 8-digit numeric code of the
access key is passed as an explicit argument.  Every definition is
translated from the source file named in its doc comment.
-/

namespace RepuestoControl

/-- Python str.zfill: left-pad a (sign-free) string with zeros up to width n. -/
def zfill (s : String) (n : Nat) : String :=
  if n ≤ s.length then s
  else String.mk (List.replicate (n - s.length) '0' ++ s.data)

/-- Python str.isdigit restricted to ASCII decimal digits, which is all the
pipeline ever produces. -/
def allDigits (s : String) : Bool :=
  s.data.all (fun c => c.isDigit)

/-- Numeric value of an ASCII digit, Python int(char). -/
def digitVal (c : Char) : Nat := c.toNat - 48

/-- From core/sri.py, calcular_digito_verificador: modulus-11 check digit
over the digit string, multipliers [2,3,4,5,6,7,8,9] cycling from the
rightmost character; 11 - (sum % 11), with 11 mapped to 0 and 10 to 1;
returned as str(digito). -/
def calcularDigitoVerificador (cadena : String) : String :=
  let multiplicadores : List Nat := [2, 3, 4, 5, 6, 7, 8, 9]
  let suma : Nat := (cadena.data.reverse.enum.map
    (fun p => digitVal p.2 * multiplicadores.getD (p.1 % 8) 0)).foldl (· + ·) 0
  let digito := 11 - suma % 11
  let digito := if digito = 11 then 0 else if digito = 10 then 1 else digito
  toString digito

/-- Whether a year is a leap year (Gregorian), as Python datetime uses. -/
def esBisiesto (y : Nat) : Bool :=
  y % 4 = 0 && (y % 100 ≠ 0 || y % 400 = 0)

/-- Days in a month, as Python datetime validates them. -/
def diasEnMes (m y : Nat) : Nat :=
  if m = 2 then (if esBisiesto y then 29 else 28)
  else if m = 4 || m = 6 || m = 9 || m = 11 then 30
  else 31

/-- From core/sri.py line 95: datetime.strptime(fecha_emision, "%d/%m/%Y")
followed by .strftime("%d%m%Y").  The model accepts exactly the zero-padded
10-character DD/MM/YYYY form with a calendar-valid date and a 4-digit year
(every caller formats dates with strftime("%d/%m/%Y"), which produces this
form); any other string yields none, modelling the ValueError raised by
strptime. -/
def fechaValida (dia mes anio : Nat) : Bool :=
  1 ≤ mes && mes ≤ 12 && 1 ≤ dia && dia ≤ diasEnMes mes anio && 1000 ≤ anio

def convertirFechaDDMMYYYY (s : String) : Option String :=
  match s.data with
  | [d1, d2, b1, m1, m2, b2, y1, y2, y3, y4] =>
    if b1 = '/' && b2 = '/' &&
       [d1, d2, m1, m2, y1, y2, y3, y4].all (fun c => c.isDigit) &&
       fechaValida (digitVal d1 * 10 + digitVal d2)
         (digitVal m1 * 10 + digitVal m2)
         (digitVal y1 * 1000 + digitVal y2 * 100 + digitVal y3 * 10 + digitVal y4) then
      some (String.mk [d1, d2, m1, m2, y1, y2, y3, y4])
    else none
  | _ => none

/-- From core/sri.py, generar_clave_acceso.  `fracTimestamp` stands for the
digits after the decimal point of str(datetime.now().timestamp()) — the
nondeterministic wall-clock input the source computes internally; the
function applies [:8] and zfill(8) to it exactly as the source does.  The
result is none when strptime rejects the emission date, modelling the
propagated ValueError. -/
def generarClaveAcceso (fechaEmision tipoComprobante ruc ambiente
    establecimiento puntoEmision secuencial tipoEmision fracTimestamp : String) :
    Option String :=
  match convertirFechaDDMMYYYY fechaEmision with
  | none => none
  | some fecha =>
    let codigoNumerico := zfill (String.mk (fracTimestamp.data.take 8)) 8
    let parte1 :=
      fecha ++ tipoComprobante ++ ruc ++ ambiente ++ establecimiento
        ++ puntoEmision ++ zfill secuencial 9 ++ tipoEmision ++ codigoNumerico
    some (parte1 ++ calcularDigitoVerificador parte1)

/-- From core/sri.py, formatear_numero_factura. -/
def formatearNumeroFactura (establecimiento puntoEmision : String)
    (secuencial : Nat) : String :=
  establecimiento ++ "-" ++ puntoEmision ++ "-" ++ zfill (toString secuencial) 9

lemma zfill_length (s : String) (n : Nat) : (zfill s n).length = max n s.length := by
  unfold zfill
  split
  · omega
  · show (List.replicate (n - s.length) '0' ++ s.data).length = _
    rw [List.length_append, List.length_replicate]
    have hs : s.length = s.data.length := rfl
    omega

lemma allDigits_zfill (s : String) (n : Nat) (h : allDigits s = true) :
    allDigits (zfill s n) = true := by
  unfold zfill
  split
  · exact h
  · show (List.replicate (n - s.length) '0' ++ s.data).all _ = true
    simp only [List.all_append, Bool.and_eq_true]
    refine ⟨?_, h⟩
    rw [List.all_eq_true]
    intro x hx
    rw [List.eq_of_mem_replicate hx]
    decide

lemma allDigits_append (s t : String) :
    allDigits (s ++ t) = (allDigits s && allDigits t) := by
  simp [allDigits, String.data_append, List.all_append]

lemma allDigits_take (s : String) (n : Nat) (h : allDigits s = true) :
    allDigits (String.mk (s.data.take n)) = true := by
  simp only [allDigits, List.all_eq_true] at h ⊢
  exact fun x hx => h x (List.mem_of_mem_take hx)

lemma length_take_le (s : String) (n : Nat) :
    (String.mk (s.data.take n)).length ≤ n := by
  show (s.data.take n).length ≤ n
  simp

lemma toString_digit_spec (n : Nat) (h : n ≤ 9) :
    (toString n).length = 1 ∧ allDigits (toString n) = true := by
  interval_cases n <;> exact ⟨rfl, rfl⟩

lemma digito_le_nueve (suma : Nat) :
    (if 11 - suma % 11 = 11 then 0
     else if 11 - suma % 11 = 10 then 1 else 11 - suma % 11) ≤ 9 := by
  have : suma % 11 < 11 := Nat.mod_lt suma (by omega)
  split
  · omega
  · split <;> omega

lemma calcularDigito_spec (s : String) :
    (calcularDigitoVerificador s).length = 1 ∧
      allDigits (calcularDigitoVerificador s) = true := by
  unfold calcularDigitoVerificador
  exact toString_digit_spec _ (digito_le_nueve _)

lemma convertirFecha_spec (s f : String) (h : convertirFechaDDMMYYYY s = some f) :
    f.length = 8 ∧ allDigits f = true := by
  unfold convertirFechaDDMMYYYY at h
  split at h
  case h_2 => exact absurd h (by simp)
  case h_1 =>
    rename_i d1 d2 b1 m1 m2 b2 y1 y2 y3 y4 heq
    split at h
    case isFalse => exact absurd h (by simp)
    case isTrue hg =>
      have hf : f = String.mk [d1, d2, m1, m2, y1, y2, y3, y4] :=
        (Option.some_injective _ h).symm
      subst hf
      simp only [Bool.and_eq_true, List.all_cons, List.all_nil] at hg
      refine ⟨rfl, ?_⟩
      show List.all _ _ = true
      simp only [List.all_cons, List.all_nil, Bool.and_eq_true]
      simp_all

lemma generarClave_eq (fechaEmision tipoComprobante ruc ambiente establecimiento
    puntoEmision secuencial tipoEmision frac fecha : String)
    (hf : convertirFechaDDMMYYYY fechaEmision = some fecha) :
    generarClaveAcceso fechaEmision tipoComprobante ruc ambiente establecimiento
        puntoEmision secuencial tipoEmision frac =
      some ((fecha ++ tipoComprobante ++ ruc ++ ambiente ++ establecimiento
          ++ puntoEmision ++ zfill secuencial 9 ++ tipoEmision
          ++ zfill (String.mk (frac.data.take 8)) 8) ++
        calcularDigitoVerificador (fecha ++ tipoComprobante ++ ruc ++ ambiente
          ++ establecimiento ++ puntoEmision ++ zfill secuencial 9 ++ tipoEmision
          ++ zfill (String.mk (frac.data.take 8)) 8)) := by
  unfold generarClaveAcceso
  rw [hf]

/-- C1: for well-formed inputs (a parseable DD/MM/YYYY date, 2-digit document
type, 13-digit RUC, 1-digit environment, 3-digit establishment, 3-digit
emission point, sequential of at most 9 digits, 1-digit emission mode, and a
digit-string wall-clock fraction), the generated access key has length 49,
consists only of decimal digits, and its final character is the modulus-11
check digit of its first 48 characters as computed by
calcularDigitoVerificador. -/
theorem c1_clave_acceso_bien_formada
    (fechaEmision tipoComprobante ruc ambiente establecimiento puntoEmision
      secuencial tipoEmision frac fecha : String)
    (hf : convertirFechaDDMMYYYY fechaEmision = some fecha)
    (ht : tipoComprobante.length = 2) (ht2 : allDigits tipoComprobante = true)
    (hr : ruc.length = 13) (hr2 : allDigits ruc = true)
    (ha : ambiente.length = 1) (ha2 : allDigits ambiente = true)
    (he : establecimiento.length = 3) (he2 : allDigits establecimiento = true)
    (hp : puntoEmision.length = 3) (hp2 : allDigits puntoEmision = true)
    (hs : secuencial.length ≤ 9) (hs2 : allDigits secuencial = true)
    (hm : tipoEmision.length = 1) (hm2 : allDigits tipoEmision = true)
    (hfr : allDigits frac = true) :
    ∃ clave, generarClaveAcceso fechaEmision tipoComprobante ruc ambiente
        establecimiento puntoEmision secuencial tipoEmision frac = some clave ∧
      clave.length = 49 ∧ allDigits clave = true ∧
      ∃ pref dig, clave = pref ++ dig ∧ pref.length = 48 ∧
        dig = calcularDigitoVerificador pref := by
  obtain ⟨hfl, hfd⟩ := convertirFecha_spec _ _ hf
  have heq := generarClave_eq fechaEmision tipoComprobante ruc ambiente
    establecimiento puntoEmision secuencial tipoEmision frac fecha hf
  set parte1 := fecha ++ tipoComprobante ++ ruc ++ ambiente ++ establecimiento
      ++ puntoEmision ++ zfill secuencial 9 ++ tipoEmision
      ++ zfill (String.mk (frac.data.take 8)) 8 with hparte
  have hcod : (zfill (String.mk (frac.data.take 8)) 8).length = 8 := by
    rw [zfill_length]
    have := length_take_le frac 8
    omega
  have hcodd : allDigits (zfill (String.mk (frac.data.take 8)) 8) = true :=
    allDigits_zfill _ _ (allDigits_take frac 8 hfr)
  have hsecl : (zfill secuencial 9).length = 9 := by rw [zfill_length]; omega
  have hsecd : allDigits (zfill secuencial 9) = true := allDigits_zfill _ _ hs2
  have hdig := calcularDigito_spec parte1
  have hp1l : parte1.length = 48 := by
    simp only [hparte, String.length_append]
    omega
  have hp1d : allDigits parte1 = true := by
    simp only [hparte, allDigits_append]
    simp [hfd, ht2, hr2, ha2, he2, hp2, hsecd, hm2, hcodd]
  refine ⟨parte1 ++ calcularDigitoVerificador parte1, heq, ?_, ?_,
    parte1, calcularDigitoVerificador parte1, rfl, hp1l, rfl⟩
  · rw [String.length_append, hp1l, hdig.1]
  · rw [allDigits_append, hp1d, hdig.2]
    rfl

/-- Witness for C1: the S1 scenario inputs (22/02/2026, invoice, RUC
1791234567001, test environment, establishment 001, point 001, sequential 1,
normal emission, wall-clock fraction 12345678) satisfy the hypotheses and
yield a well-formed 49-digit key. -/
theorem c1_clave_acceso_bien_formada_witness :
    convertirFechaDDMMYYYY "22/02/2026" = some "22022026" ∧
    ∃ clave, generarClaveAcceso "22/02/2026" "01" "1791234567001" "1" "001"
        "001" "1" "1" "12345678" = some clave ∧
      clave.length = 49 ∧ allDigits clave = true ∧
      ∃ pref dig, clave = pref ++ dig ∧ pref.length = 48 ∧
        dig = calcularDigitoVerificador pref :=
  ⟨by decide,
    c1_clave_acceso_bien_formada "22/02/2026" "01" "1791234567001" "1" "001"
      "001" "1" "1" "12345678" "22022026" (by decide) (by decide) (by decide)
      (by decide) (by decide) (by decide) (by decide) (by decide) (by decide)
      (by decide) (by decide) (by decide) (by decide) (by decide) (by decide)
      (by decide)⟩

/-- C6 counterexample: generar_clave_acceso draws its 8-digit numeric code
from the wall clock inside the function (str(datetime.now().timestamp())),
so two invocations with identical declared inputs (same date, doc type, RUC,
environment, establishment, point, sequential, mode) but different clock
readings return different keys: the generator is not a deterministic function
of its declared inputs, and nothing records the code with the document. -/
theorem c6_contraejemplo :
    generarClaveAcceso "22/02/2026" "01" "1791234567001" "1" "001" "001" "1"
        "1" "0" ≠
      generarClaveAcceso "22/02/2026" "01" "1791234567001" "1" "001" "001" "1"
        "1" "1" := by
  decide

/-- C6 as amended: the access key is a deterministic function of the declared
inputs together with the wall-clock-derived 8-digit numeric code (positions
41 to 48 of the key); two generations for the same document inputs return the
identical 49-digit key exactly when the numeric codes derived from the two
clock readings coincide.  The source records neither the code nor the key
inside the generator, so regeneration is idempotent only under that equality. -/
theorem c6_clave_determinada_por_codigo
    (fechaEmision tipoComprobante ruc ambiente establecimiento puntoEmision
      secuencial tipoEmision frac1 frac2 fecha : String)
    (hf : convertirFechaDDMMYYYY fechaEmision = some fecha) :
    generarClaveAcceso fechaEmision tipoComprobante ruc ambiente establecimiento
        puntoEmision secuencial tipoEmision frac1 =
      generarClaveAcceso fechaEmision tipoComprobante ruc ambiente
        establecimiento puntoEmision secuencial tipoEmision frac2 ↔
    zfill (String.mk (frac1.data.take 8)) 8 =
      zfill (String.mk (frac2.data.take 8)) 8 := by
  rw [generarClave_eq fechaEmision tipoComprobante ruc ambiente establecimiento
        puntoEmision secuencial tipoEmision frac1 fecha hf,
      generarClave_eq fechaEmision tipoComprobante ruc ambiente establecimiento
        puntoEmision secuencial tipoEmision frac2 fecha hf]
  constructor
  · intro h
    have h' := Option.some_injective _ h
    have hd := congrArg String.data h'
    simp only [String.data_append, List.append_assoc] at hd
    repeat rw [List.append_cancel_left_eq] at hd
    have hl : (zfill (String.mk (frac1.data.take 8)) 8).data.length =
        (zfill (String.mk (frac2.data.take 8)) 8).data.length := by
      show (zfill (String.mk (frac1.data.take 8)) 8).length =
        (zfill (String.mk (frac2.data.take 8)) 8).length
      rw [zfill_length, zfill_length]
      have h1 := length_take_le frac1 8
      have h2 := length_take_le frac2 8
      omega
    exact String.ext (List.append_inj hd hl).1
  · intro h
    rw [h]

/-- C6 amended witness: concrete fractions 123 and 1230 both derive the
numeric code 00000123, and the generated keys are accordingly equal. -/
theorem c6_clave_determinada_por_codigo_witness :
    convertirFechaDDMMYYYY "22/02/2026" = some "22022026" ∧
    (generarClaveAcceso "22/02/2026" "01" "1791234567001" "1" "001" "001" "1"
        "1" "123" =
      generarClaveAcceso "22/02/2026" "01" "1791234567001" "1" "001" "001" "1"
        "1" "0123" ↔
     zfill (String.mk (("123" : String).data.take 8)) 8 =
       zfill (String.mk (("0123" : String).data.take 8)) 8) :=
  ⟨by decide,
    c6_clave_determinada_por_codigo "22/02/2026" "01" "1791234567001" "1" "001"
      "001" "1" "1" "123" "0123" "22022026" (by decide)⟩

/-- State of one persistent sequential counter (a secuencia_* column of the
single Configuracion row) together with the django cache entry the allocator
keeps under "sri_secuencial_(id)_(tipo)".  cacheSec = none models a cold or
expired cache. -/
structure EstadoSecuencial where
  contador : Nat
  cacheSec : Option Nat
  deriving Repr, DecidableEq

/-- From core/control_secuencial.py, the locked database section of
GestorSecuencial.obtener_sigiente_secuencial: read the column (a missing or
zero value reads as 1 via getattr(..., 1) or 1), raise ErrorSecuencial when
it exceeds MAX_SECUENCIAL = 999999999, otherwise store and return the
incremented value and cache it. -/
def obtenerDesdeBase (s : EstadoSecuencial) :
    Except String (Nat × EstadoSecuencial) :=
  let secuencialActual := if s.contador = 0 then 1 else s.contador
  if secuencialActual > 999999999 then
    Except.error "Secuencial máximo alcanzado: 999999999"
  else
    let nuevo := secuencialActual + 1
    Except.ok (nuevo, { contador := nuevo, cacheSec := some nuevo })

/-- From core/control_secuencial.py, GestorSecuencial.obtener_sigiente_secuencial
(name kept with the source's spelling).  Line 74 of the source reads
`tipo_comu probante`, a Python syntax error; the model uses the evident
`tipo_comprobante` so the body can be analysed.  A truthy cached value (the
Python test `if secuencial:`) is returned as is, without touching the lock or
the counter; otherwise the locked database path runs. -/
def obtenerSigienteSecuencial (s : EstadoSecuencial) :
    Except String (Nat × EstadoSecuencial) :=
  match s.cacheSec with
  | some v => if v ≠ 0 then Except.ok (v, s) else obtenerDesdeBase s
  | none => obtenerDesdeBase s

/-- From core/models.py, Configuracion.get_siguiente_secuencial: read the
column, store value+1, return the pre-increment value; no ceiling check. -/
def getSiguienteSecuencial (contador : Nat) : Nat × Nat :=
  (contador, contador + 1)

/-- C2: with the counter at 5 and a cold cache, the first allocation locks,
increments and returns 6, caching 6; the second allocation is served from the
cache and returns 6 again without incrementing the counter — two consecutive
allocator invocations for the same (emitter, doc_type) return the same value,
contradicting strict increase, distinctness and the promise that the cache
never bypasses the locked increment (and the module's own description,
"Bloqueo contra duplicidad"). -/
theorem c2_cache_devuelve_duplicado :
    obtenerSigienteSecuencial ⟨5, none⟩ =
      Except.ok (6, ⟨6, some 6⟩) ∧
    obtenerSigienteSecuencial ⟨6, some 6⟩ =
      Except.ok (6, ⟨6, some 6⟩) :=
  ⟨rfl, rfl⟩

/-- C3 counterexample: with the stored counter at 999_999_999 (at, not above,
the ceiling) the allocator succeeds and returns 1_000_000_000 — the
post-increment value, outside [1, 999_999_999] — instead of returning the
pre-increment value or failing; and Configuracion.get_siguiente_secuencial
returns the pre-increment value with no ceiling at all. -/
theorem c3_contraejemplo :
    obtenerSigienteSecuencial ⟨999999999, none⟩ =
      Except.ok (1000000000, ⟨1000000000, some 1000000000⟩) ∧
    ¬(1000000000 ≤ 999999999) ∧
    getSiguienteSecuencial 1000000000 = (1000000000, 1000000001) := by
  refine ⟨rfl, by omega, rfl⟩

/-- C3 as amended: on a cache miss GestorSecuencial.obtener_sigiente_secuencial
reads the current value v (a missing or zero column reads as 1), writes and
returns v+1 — the post-increment value — so returned values lie in
[2, 1_000_000_000]; it raises ErrorSecuencial only when the stored value
already exceeds 999_999_999.  Configuracion.get_siguiente_secuencial instead
returns the pre-increment value and never fails. -/
theorem c3_asignador_postincremento (n : Nat) :
    getSiguienteSecuencial n = (n, n + 1) ∧
    ((if n = 0 then 1 else n) ≤ 999999999 →
      obtenerSigienteSecuencial ⟨n, none⟩ =
        Except.ok ((if n = 0 then 1 else n) + 1,
          ⟨(if n = 0 then 1 else n) + 1, some ((if n = 0 then 1 else n) + 1)⟩) ∧
      2 ≤ (if n = 0 then 1 else n) + 1 ∧
      (if n = 0 then 1 else n) + 1 ≤ 1000000000) ∧
    (999999999 < (if n = 0 then 1 else n) →
      obtenerSigienteSecuencial ⟨n, none⟩ =
        Except.error "Secuencial máximo alcanzado: 999999999") := by
  by_cases h0 : n = 0
  · subst h0
    exact ⟨rfl, fun _ => ⟨rfl, by decide, by decide⟩, fun h => absurd h (by decide)⟩
  · have hif : (if n = 0 then 1 else n) = n := if_neg h0
    rw [hif]
    refine ⟨rfl, ?_, ?_⟩
    · intro hle
      have hok : obtenerSigienteSecuencial ⟨n, none⟩ =
          Except.ok (n + 1, ⟨n + 1, some (n + 1)⟩) := by
        show obtenerDesdeBase ⟨n, none⟩ = _
        unfold obtenerDesdeBase
        dsimp only
        rw [hif, if_neg (by omega)]
      exact ⟨hok, by omega, by omega⟩
    · intro hgt
      show obtenerDesdeBase ⟨n, none⟩ = _
      unfold obtenerDesdeBase
      dsimp only
      rw [hif, if_pos (by omega)]

/-- Witness for the amended C3: with the counter at 7 the allocator returns
the post-increment value 8 and caches it. -/
theorem c3_asignador_postincremento_witness :
    (if (7 : Nat) = 0 then 1 else 7) ≤ 999999999 ∧
    obtenerSigienteSecuencial ⟨7, none⟩ = Except.ok (8, ⟨8, some 8⟩) :=
  ⟨by decide, ((c3_asignador_postincremento 7).2.1 (by decide)).1⟩

/-- Python round(x, 2) idealised over the exact rational value: round half to
even at two decimal places. -/
def roundHalfEven (q : ℚ) : ℤ :=
  let n := ⌊q⌋
  let f := q - n
  if f < 1/2 then n
  else if 1/2 < f then n + 1
  else if n % 2 = 0 then n else n + 1

/-- Two-decimal rounding used by the builder, round(x, 2) in the source. -/
def round2 (q : ℚ) : ℚ := (roundHalfEven (q * 100) : ℚ) / 100

/-- The header totals of the invoice XML, as rendered by generar_xml_factura:
totalSinImpuestos, totalDescuento, the single totalImpuesto block
(baseImponible, valor) and importeTotal. -/
structure TotalesFactura where
  totalSinImpuestos : ℚ
  totalDescuento : ℚ
  baseImponible : ℚ
  iva : ℚ
  importeTotal : ℚ
  conImpuesto : Bool
  deriving Repr, DecidableEq

/-- From core/sri.py lines 144-150 (the "# Calcular IVA" block of
generar_xml_factura) together with the header totals it renders: the tax is
computed once, on subtotal_12 - descuento, at the configured rate, rounded to
two decimals; importeTotal is subtotal_12 + subtotal_0 + iva - descuento.
The totalImpuesto block is emitted only when subtotal_12 > 0
(conImpuesto).  Rationals stand for the Python floats; the float rounding
error is far below the 0.01 tolerance at stake. -/
def calcularTotalesFactura (ivaTarifa subtotal12 subtotal0 descuento : ℚ) :
    TotalesFactura :=
  let subtotalConDesc := subtotal12 - descuento
  let iva := round2 (subtotalConDesc * (ivaTarifa / 100))
  { totalSinImpuestos := subtotal12 + subtotal0
    totalDescuento := descuento
    baseImponible := subtotalConDesc
    iva := iva
    importeTotal := subtotal12 + subtotal0 + iva - descuento
    conImpuesto := decide (0 < subtotal12) }

/-- C7 counterexample: for a sale with subtotal_12 = 100, subtotal_0 = 0,
total discount 10 at the 12 percent rate, the rendered base is 90 and the tax
10.80, so sum(bases) + sum(taxes) - total_discount = 90.80 while the rendered
importeTotal is 100.80: the mismatch is 10, far beyond the claimed 0.01
tolerance (and the per-line tax in the source is computed on the line
subtotal without subtracting the line discount). -/
theorem c7_contraejemplo :
    |(calcularTotalesFactura 12 100 0 10).importeTotal -
        ((calcularTotalesFactura 12 100 0 10).baseImponible +
          (calcularTotalesFactura 12 100 0 10).iva -
          (calcularTotalesFactura 12 100 0 10).totalDescuento)| = 10 ∧
    ¬(|(calcularTotalesFactura 12 100 0 10).importeTotal -
        ((calcularTotalesFactura 12 100 0 10).baseImponible +
          (calcularTotalesFactura 12 100 0 10).iva -
          (calcularTotalesFactura 12 100 0 10).totalDescuento)| ≤ 1/100) := by
  norm_num [calcularTotalesFactura, round2, roundHalfEven]

/-- C7 as amended: the builder computes tax once at header level on
(subtotal_12 - total_discount) at the configured rate rounded to two
decimals, and importeTotal reconciles exactly (hence within 0.01) against
totalSinImpuestos + tax - total_discount; it does not reconcile against the
sum of rendered tax bases when the discount or the zero-rated amount is
nonzero, and the source performs no builder-error check. -/
theorem c7_importe_total_reconciliado
    (ivaTarifa subtotal12 subtotal0 descuento : ℚ) :
    (calcularTotalesFactura ivaTarifa subtotal12 subtotal0 descuento).importeTotal =
      (calcularTotalesFactura ivaTarifa subtotal12 subtotal0 descuento).totalSinImpuestos +
        (calcularTotalesFactura ivaTarifa subtotal12 subtotal0 descuento).iva -
        (calcularTotalesFactura ivaTarifa subtotal12 subtotal0 descuento).totalDescuento ∧
    |(calcularTotalesFactura ivaTarifa subtotal12 subtotal0 descuento).importeTotal -
        ((calcularTotalesFactura ivaTarifa subtotal12 subtotal0 descuento).totalSinImpuestos +
          (calcularTotalesFactura ivaTarifa subtotal12 subtotal0 descuento).iva -
          (calcularTotalesFactura ivaTarifa subtotal12 subtotal0 descuento).totalDescuento)| ≤
      1/100 := by
  unfold calcularTotalesFactura
  dsimp only
  constructor
  · ring
  · have h : (subtotal12 + subtotal0 + round2 ((subtotal12 - descuento) * (ivaTarifa / 100)) - descuento) -
        (subtotal12 + subtotal0 + round2 ((subtotal12 - descuento) * (ivaTarifa / 100)) - descuento) = 0 := by
      ring
    rw [show (subtotal12 + subtotal0) + round2 ((subtotal12 - descuento) * (ivaTarifa / 100)) - descuento =
      subtotal12 + subtotal0 + round2 ((subtotal12 - descuento) * (ivaTarifa / 100)) - descuento from by ring,
      h]
    norm_num

/-- Python string truthiness fallback, s or d, for the blank CharFields the
builder reads. -/
def oSi (s d : String) : String := if s = "" then d else s

/-- The fields of ventas.models.Cliente that generar_xml_factura reads; blank
Django CharFields are the empty string. -/
structure ClienteView where
  tipoIdentificacion : String
  cedula : String
  nombre : String
  direccion : String
  telefono : String
  email : String
  deriving Repr, DecidableEq

/-- One sale line as read by the builder: detalle.repuesto.codigo and
.nombre, cantidad, precio_unitario, descuento_item, subtotal. -/
structure DetalleView where
  codigo : String
  nombre : String
  cantidad : Nat
  precioUnitario : ℚ
  descuentoItem : ℚ
  subtotal : ℚ
  deriving Repr, DecidableEq

/-- The fields of ventas.models.Venta that generar_xml_factura reads; the
emission date is venta.created_at at day granularity. -/
structure VentaView where
  diaEmision : Nat
  mesEmision : Nat
  anioEmision : Nat
  subtotal12 : ℚ
  subtotal0 : ℚ
  descuento : ℚ
  formaPagoSri : String
  cliente : Option ClienteView
  detalles : List DetalleView
  deriving Repr, DecidableEq

/-- The fields of core/models.py Configuracion that generar_xml_factura
reads (the single configuration row). -/
structure Configuracion where
  ruc : String
  razonSocial : String
  nombreComercial : String
  direccionMatriz : String
  direccionSucursal : String
  ambiente : String
  tipoEmision : String
  establecimiento : String
  puntoEmision : String
  secuenciaFactura : Nat
  ivaTarifa12 : ℚ
  obligadoContabilidad : Bool
  contribuyenteEspecial : Bool
  resolucionContribuyente : String
  tipoContribuyente : String
  deriving Repr, DecidableEq

/-- Buyer block of infoFactura, from the "# Datos del cliente" section of
generar_xml_factura: identification-type mapping with consumidor-final
fallback. -/
structure DatosComprador where
  tipoId : String
  identificacion : String
  nombre : String
  direccion : String
  telefono : String
  email : String
  deriving Repr, DecidableEq

/-- From core/sri.py generar_xml_factura, the buyer-data branch. -/
def datosComprador (cliente : Option ClienteView) : DatosComprador :=
  match cliente with
  | some c =>
    { tipoId :=
        if c.tipoIdentificacion = "ruc" then "04"
        else if c.tipoIdentificacion = "cedula" then "05"
        else if c.tipoIdentificacion = "pasaporte" then "06"
        else "07"
      identificacion := oSi c.cedula "9999999999"
      nombre := c.nombre
      direccion := oSi c.direccion "N/A"
      telefono := c.telefono
      email := c.email }
  | none =>
    { tipoId := "07", identificacion := "9999999999"
      nombre := "CONSUMIDOR FINAL", direccion := "N/A"
      telefono := "", email := "" }

/-- One rendered detalle element with its per-line tax block. -/
structure DetalleXml where
  codigoPrincipal : String
  descripcion : String
  cantidad : Nat
  precioUnitario : ℚ
  descuento : ℚ
  precioTotalSinImpuesto : ℚ
  codigoPorcentaje : String
  tarifa : ℚ
  baseImponible : ℚ
  valor : ℚ
  deriving Repr, DecidableEq

/-- From the detalles loop of generar_xml_factura: the per-line tax value is
detalle.subtotal * (iva_tarifa / 100) on the raw subtotal, rendered later at
two decimals. -/
def generarDetalleXml (ivaTarifa : ℚ) (d : DetalleView) : DetalleXml :=
  { codigoPrincipal := d.codigo
    descripcion := d.nombre
    cantidad := d.cantidad
    precioUnitario := d.precioUnitario
    descuento := d.descuentoItem
    precioTotalSinImpuesto := d.subtotal
    codigoPorcentaje := if ivaTarifa = 12 then "2" else "0"
    tarifa := ivaTarifa
    baseImponible := d.subtotal
    valor := d.subtotal * (ivaTarifa / 100) }

/-- The invoice XML tree, restricted to the element contents the claims
inspect; the source renders the same values through ElementTree. -/
structure XmlFactura where
  ambiente : String
  tipoEmision : String
  razonSocial : String
  nombreComercial : String
  ruc : String
  claveAcceso : String
  codDoc : String
  estab : String
  ptoEmision : String
  secuencialTexto : String
  dirMatriz : String
  fechaEmision : String
  dirEstablecimiento : String
  comprador : DatosComprador
  obligadoContabilidad : String
  contribuyenteEspecial : Option String
  tipoProveedor : String
  totales : TotalesFactura
  codigoPorcentaje : String
  moneda : String
  formaPago : String
  pagoValor : ℚ
  detalles : List DetalleXml
  deriving Repr, DecidableEq

/-- The dictionary generar_xml_factura returns. -/
structure ResultadoXmlFactura where
  xml : XmlFactura
  claveAcceso : String
  numeroFactura : String
  secuencial : Nat
  deriving Repr, DecidableEq

/-- From core/sri.py, generar_xml_factura.  The configuration is threaded
explicitly to expose reads and (absent) writes: the function only ever reads
it, so it is returned unchanged in every branch.  The secuencial embedded in
the key, the number and the XML is config.secuencia_factura as given; no
allocator is invoked.  frac is the wall-clock fraction consumed by
generar_clave_acceso; the none branch mirrors the (unreachable for datetime
dates) strptime failure. -/
def generarXmlFactura (venta : VentaView) (config : Configuracion)
    (frac : String) : Option ResultadoXmlFactura × Configuracion :=
  let fechaEmision := zfill (toString venta.diaEmision) 2 ++ "/"
    ++ zfill (toString venta.mesEmision) 2 ++ "/"
    ++ zfill (toString venta.anioEmision) 4
  let secuencial := config.secuenciaFactura
  match generarClaveAcceso fechaEmision "01" config.ruc config.ambiente
      config.establecimiento config.puntoEmision (toString secuencial)
      config.tipoEmision frac with
  | none => (none, config)
  | some claveAcceso =>
    let numeroFactura := formatearNumeroFactura config.establecimiento
      config.puntoEmision secuencial
    let totales := calcularTotalesFactura config.ivaTarifa12 venta.subtotal12
      venta.subtotal0 venta.descuento
    (some
      { xml :=
          { ambiente := config.ambiente
            tipoEmision := config.tipoEmision
            razonSocial := config.razonSocial
            nombreComercial := oSi config.nombreComercial config.razonSocial
            ruc := config.ruc
            claveAcceso := claveAcceso
            codDoc := "01"
            estab := config.establecimiento
            ptoEmision := config.puntoEmision
            secuencialTexto := zfill (toString secuencial) 9
            dirMatriz := config.direccionMatriz
            fechaEmision := fechaEmision
            dirEstablecimiento := oSi config.direccionSucursal config.direccionMatriz
            comprador := datosComprador venta.cliente
            obligadoContabilidad := if config.obligadoContabilidad then "SI" else "NO"
            contribuyenteEspecial :=
              if config.contribuyenteEspecial
              then some (oSi config.resolucionContribuyente "N/A") else none
            tipoProveedor := if config.tipoContribuyente = "sociedad" then "01" else "02"
            totales := totales
            codigoPorcentaje :=
              if config.ivaTarifa12 = 12 then "2"
              else if config.ivaTarifa12 = 0 then "0" else "3"
            moneda := "DOLAR"
            formaPago := oSi venta.formaPagoSri "01"
            pagoValor := totales.importeTotal
            detalles := venta.detalles.map (generarDetalleXml config.ivaTarifa12) }
        claveAcceso := claveAcceso
        numeroFactura := numeroFactura
        secuencial := secuencial }, config)

/-- C10: generar_xml_factura is read-only with respect to its inputs — the
configuration it is handed (in particular secuencia_factura) comes back
unchanged in every branch, and the returned result embeds the counter value
it was given (as the secuencial and as the zero-padded secuencial element)
rather than allocating or incrementing anything. -/
theorem c10_generar_xml_sin_escritura (venta : VentaView)
    (config : Configuracion) (frac : String) :
    (generarXmlFactura venta config frac).2 = config ∧
    (match (generarXmlFactura venta config frac).1 with
     | none => True
     | some r =>
       r.secuencial = config.secuenciaFactura ∧
       r.xml.secuencialTexto = zfill (toString config.secuenciaFactura) 9) := by
  unfold generarXmlFactura
  dsimp only
  split
  · exact ⟨rfl, trivial⟩
  · exact ⟨rfl, rfl, rfl⟩

/-- Parsed reception response of SRIWebService.enviar_comprobante: estado is
RECIBIDA, DEVUELTA or the DESCONOCIDO fallback. -/
structure RespuestaRecepcion where
  estado : String
  mensajes : List String
  deriving Repr, DecidableEq

/-- Parsed authorization response of SRIWebService.autorizacion_comprobante:
estado is AUTORIZADA, NO AUTORIZADA, the EN PROCESO default, or the raw
upper-cased status. -/
structure RespuestaAutorizacion where
  estado : String
  numeroAutorizacion : String
  fechaAutorizacion : String
  xml : String
  deriving Repr, DecidableEq

/-- The dictionary core/sri_ws.py procesar_comprobante returns, instrumented
with the number of authorization queries issued (consultas), which the
source performs by calling sri.autorizacion_comprobante. -/
structure ResultadoComprobante where
  claveAcceso : String
  recepcion : Option RespuestaRecepcion
  autorizacion : Option RespuestaAutorizacion
  estadoFinal : String
  errores : List String
  consultas : Nat
  deriving Repr, DecidableEq

/-- From core/sri_ws.py, procesar_comprobante.  The environment is abstracted
as the reception response plus the stream of responses the authorization
endpoint would give to successive queries.  The source sends the comprobante,
short-circuits on DEVUELTA, and otherwise issues exactly one authorization
query — there is no polling loop — so only the head of the stream is ever
consumed; an empty stream models the single query failing with ErrorSRI,
which the except branch turns into estado_final ERROR. -/
def procesarComprobante (claveAcceso : String) (recepcion : RespuestaRecepcion)
    (autorizaciones : List RespuestaAutorizacion) : ResultadoComprobante :=
  if recepcion.estado = "DEVUELTA" then
    { claveAcceso := claveAcceso
      recepcion := some recepcion
      autorizacion := none
      estadoFinal := "DEVUELTO"
      errores := ["Comprobante devuelto"]
      consultas := 0 }
  else
    match autorizaciones with
    | [] =>
      { claveAcceso := claveAcceso
        recepcion := some recepcion
        autorizacion := none
        estadoFinal := "ERROR"
        errores := ["Error del SRI"]
        consultas := 1 }
    | aut :: _ =>
      { claveAcceso := claveAcceso
        recepcion := some recepcion
        autorizacion := some aut
        estadoFinal := aut.estado
        errores := []
        consultas := 1 }

/-- C5 counterexample: with reception RECIBIDA and an environment that would
answer EN PROCESO, EN PROCESO, then AUTORIZADA (number N-001) to successive
authorization queries, the run issues a single query and ends with
estado_final EN PROCESO and an empty authorization number — not AUTORIZADA —
because procesar_comprobante has no polling loop. -/
theorem c5_contraejemplo :
    (procesarComprobante "K" ⟨"RECIBIDA", []⟩
        [⟨"EN PROCESO", "", "", ""⟩, ⟨"EN PROCESO", "", "", ""⟩,
         ⟨"AUTORIZADA", "N-001", "01/03/2026 10:00:00", "xml"⟩]).consultas = 1 ∧
    (procesarComprobante "K" ⟨"RECIBIDA", []⟩
        [⟨"EN PROCESO", "", "", ""⟩, ⟨"EN PROCESO", "", "", ""⟩,
         ⟨"AUTORIZADA", "N-001", "01/03/2026 10:00:00", "xml"⟩]).estadoFinal =
      "EN PROCESO" ∧
    (procesarComprobante "K" ⟨"RECIBIDA", []⟩
        [⟨"EN PROCESO", "", "", ""⟩, ⟨"EN PROCESO", "", "", ""⟩,
         ⟨"AUTORIZADA", "N-001", "01/03/2026 10:00:00", "xml"⟩]).estadoFinal ≠
      "AUTORIZADA" := by
  refine ⟨rfl, rfl, by decide⟩

/-- C5 as amended: after a reception that is not DEVUELTA the client issues
exactly one authorization query and adopts whatever status that single
response carries as estado_final (EN PROCESO included, leaving the document
unauthorized); only transport-level timeouts are retried, never the EN
PROCESO business status. -/
theorem c5_una_sola_consulta (clave : String) (recepcion : RespuestaRecepcion)
    (aut : RespuestaAutorizacion) (resto : List RespuestaAutorizacion)
    (h : recepcion.estado ≠ "DEVUELTA") :
    procesarComprobante clave recepcion (aut :: resto) =
      { claveAcceso := clave
        recepcion := some recepcion
        autorizacion := some aut
        estadoFinal := aut.estado
        errores := []
        consultas := 1 } := by
  unfold procesarComprobante
  rw [if_neg h]

/-- Witness for the amended C5: a RECIBIDA reception followed by a single
AUTORIZADA response ends AUTORIZADA after one query. -/
theorem c5_una_sola_consulta_witness :
    (⟨"RECIBIDA", []⟩ : RespuestaRecepcion).estado ≠ "DEVUELTA" ∧
    procesarComprobante "K" ⟨"RECIBIDA", []⟩
        [⟨"AUTORIZADA", "N-001", "01/03/2026 10:00:00", "xml"⟩] =
      { claveAcceso := "K"
        recepcion := some ⟨"RECIBIDA", []⟩
        autorizacion := some ⟨"AUTORIZADA", "N-001", "01/03/2026 10:00:00", "xml"⟩
        estadoFinal := "AUTORIZADA"
        errores := []
        consultas := 1 } :=
  ⟨by decide,
    c5_una_sola_consulta "K" ⟨"RECIBIDA", []⟩
      ⟨"AUTORIZADA", "N-001", "01/03/2026 10:00:00", "xml"⟩ [] (by decide)⟩

/-- The pipeline stages ProcesadorFacturaElectronica.procesar_factura can
invoke, recorded observationally as they run. -/
inductive Etapa where
  | generarXml
  | validar
  | firmarXml
  | enviarSri
  | generarPdf
  | enviarEmail
  deriving Repr, DecidableEq

/-- The dictionary _enviar_al_sri returns (procesar_comprobante's resultado):
estado_final, the autorizacion sub-dictionary — which is None on the
DEVUELTO and ERROR paths — and accumulated errores. -/
structure SalidaSRI where
  estadoFinal : String
  autorizacion : Option RespuestaAutorizacion
  errores : List String
  deriving Repr, DecidableEq

/-- The resultado dictionary of procesar_factura, plus the observational
list of stages that ran. -/
structure ResultadoFactura where
  success : Bool
  estado : String
  claveAcceso : String
  numeroFactura : String
  numeroAutorizacion : String
  fechaAutorizacion : String
  xml : String
  xmlFirmado : String
  xmlAutorizado : Option String
  pdf : Option String
  errores : List String
  mensajes : List String
  etapas : List Etapa
  deriving Repr, DecidableEq

/-- The outer except-branch of procesar_factura: append the exception text to
errores and set estado to error.  Steps 5 and 6 do not run afterwards. -/
def manejarExcepcion (r : ResultadoFactura) (msg : String) : ResultadoFactura :=
  { r with errores := r.errores ++ [msg], estado := "error" }

/-- Steps 5 and 6 of procesar_factura: generate the RIDE PDF (failure only
appends "PDF no generado"), send the email when enviar_email is set and a
PDF exists (failure only appends "Email no enviado"), then set success from
estado == "autorizado".  These steps run whatever estado holds. -/
def finalizarFactura (enviarEmailFlag : Bool) (pdfRes : Except String String)
    (emailRes : Except String Unit) (r : ResultadoFactura) : ResultadoFactura :=
  let r :=
    match pdfRes with
    | Except.ok pdfBytes =>
      { r with pdf := some pdfBytes, etapas := r.etapas ++ [Etapa.generarPdf] }
    | Except.error e =>
      { r with mensajes := r.mensajes ++ ["PDF no generado: " ++ e]
               etapas := r.etapas ++ [Etapa.generarPdf] }
  let r :=
    if enviarEmailFlag && r.pdf.isSome then
      match emailRes with
      | Except.ok _ =>
        { r with mensajes := r.mensajes ++ ["Email enviado"]
                 etapas := r.etapas ++ [Etapa.enviarEmail] }
      | Except.error e =>
        { r with mensajes := r.mensajes ++ ["Email no enviado: " ++ e]
                 etapas := r.etapas ++ [Etapa.enviarEmail] }
    else r
  { r with success := r.estado == "autorizado" }

/-- Step 4 of procesar_factura.  With enviar_sri set it adopts estado_final
from _enviar_al_sri; reading the authorization fields then crashes with
AttributeError when the autorizacion entry is None (the DEVUELTO and ERROR
returns of procesar_comprobante), which the outer except turns into estado
error.  Without enviar_sri, the test environment simulates an authorization.
Either way the surviving run continues into steps 5 and 6. -/
def paso4Factura (enviarSriFlag enviarEmailFlag : Bool)
    (ambiente fechaAhora : String) (sriRes : Except String SalidaSRI)
    (pdfRes : Except String String) (emailRes : Except String Unit)
    (r : ResultadoFactura) : ResultadoFactura :=
  if enviarSriFlag then
    match sriRes with
    | Except.error e =>
      manejarExcepcion { r with etapas := r.etapas ++ [Etapa.enviarSri] }
        ("Error al enviar al SRI: " ++ e)
    | Except.ok sal =>
      match sal.autorizacion with
      | none =>
        manejarExcepcion
          { r with estado := sal.estadoFinal
                   etapas := r.etapas ++ [Etapa.enviarSri] }
          "AttributeError: NoneType object has no attribute get"
      | some aut =>
        finalizarFactura enviarEmailFlag pdfRes emailRes
          { r with estado := sal.estadoFinal
                   numeroAutorizacion := aut.numeroAutorizacion
                   fechaAutorizacion := aut.fechaAutorizacion
                   errores := r.errores ++ sal.errores
                   xmlAutorizado := if aut.xml ≠ "" then some aut.xml else r.xmlAutorizado
                   etapas := r.etapas ++ [Etapa.enviarSri] }
  else
    if ambiente = "1" then
      finalizarFactura enviarEmailFlag pdfRes emailRes
        { r with estado := "autorizado"
                 numeroAutorizacion := r.claveAcceso
                 fechaAutorizacion := fechaAhora
                 xmlAutorizado := some r.xmlFirmado }
    else
      finalizarFactura enviarEmailFlag pdfRes emailRes r

/-- From core/procesamiento_sri.py, ProcesadorFacturaElectronica.procesar_factura.
Stage outcomes are passed as Except values standing for the collaborating
components (XSD validation verdict, _firmar_xml, _enviar_al_sri, PDF
generation, email dispatch); fechaAhora is the datetime.now() string of the
simulated-authorization path.  XML generation (step 1) is taken as having
produced the given xml/clave/numero.  An exception raised in steps 2-4 jumps
to manejarExcepcion and skips steps 5 and 6; otherwise finalizarFactura runs
them unconditionally. -/
def procesarFactura (ambiente : String)
    (firmarFlag enviarSriFlag enviarEmailFlag : Bool)
    (xmlGenerado claveAcceso numeroFactura : String)
    (xsdValido : Bool) (erroresXsd : List String)
    (firmaRes : Except String String) (sriRes : Except String SalidaSRI)
    (pdfRes : Except String String) (emailRes : Except String Unit)
    (fechaAhora : String) : ResultadoFactura :=
  let r1 : ResultadoFactura :=
    { success := false, estado := "xml_generado", claveAcceso := claveAcceso
      numeroFactura := numeroFactura, numeroAutorizacion := ""
      fechaAutorizacion := "", xml := xmlGenerado, xmlFirmado := ""
      xmlAutorizado := none, pdf := none, errores := [], mensajes := []
      etapas := [Etapa.generarXml, Etapa.validar] }
  if xsdValido = false ∧ ambiente ≠ "1" then
    manejarExcepcion
      { r1 with errores := r1.errores ++ erroresXsd, estado := "error_validacion" }
      "Validación XSD falló"
  else
    let r2 :=
      if xsdValido then { r1 with estado := "validado" }
      else { r1 with errores := r1.errores ++ erroresXsd, estado := "validado" }
    if firmarFlag then
      match firmaRes with
      | Except.error e =>
        manejarExcepcion { r2 with etapas := r2.etapas ++ [Etapa.firmarXml] }
          ("Error al firmar: " ++ e)
      | Except.ok firmado =>
        paso4Factura enviarSriFlag enviarEmailFlag ambiente fechaAhora sriRes
          pdfRes emailRes
          { r2 with xmlFirmado := firmado, estado := "firmado"
                    etapas := r2.etapas ++ [Etapa.firmarXml] }
    else
      paso4Factura enviarSriFlag enviarEmailFlag ambiente fechaAhora sriRes
        pdfRes emailRes { r2 with xmlFirmado := xmlGenerado }

lemma finalizar_estado (em : Bool) (pr : Except String String)
    (er : Except String Unit) (r : ResultadoFactura) :
    (finalizarFactura em pr er r).estado = r.estado := by
  unfold finalizarFactura
  cases pr <;> cases er <;> dsimp only <;> split <;> rfl

lemma finalizar_errores (em : Bool) (pr : Except String String)
    (er : Except String Unit) (r : ResultadoFactura) :
    (finalizarFactura em pr er r).errores = r.errores := by
  unfold finalizarFactura
  cases pr <;> cases er <;> dsimp only <;> split <;> rfl

lemma finalizar_etapas_mono (em : Bool) (pr : Except String String)
    (er : Except String Unit) (r : ResultadoFactura) (e : Etapa)
    (h : e ∈ r.etapas) : e ∈ (finalizarFactura em pr er r).etapas := by
  unfold finalizarFactura
  cases pr <;> cases er <;> dsimp only <;> split <;>
    simp_all [List.mem_append]

lemma finalizar_pdf_etapa (em : Bool) (pr : Except String String)
    (er : Except String Unit) (r : ResultadoFactura) :
    Etapa.generarPdf ∈ (finalizarFactura em pr er r).etapas := by
  unfold finalizarFactura
  cases pr <;> cases er <;> dsimp only <;> split <;>
    simp [List.mem_append]

lemma paso4_estado_indep (esf eef : Bool) (amb fn : String)
    (sri : Except String SalidaSRI) (p1 p2 : Except String String)
    (e1 e2 : Except String Unit) (r : ResultadoFactura) :
    (paso4Factura esf eef amb fn sri p1 e1 r).estado =
      (paso4Factura esf eef amb fn sri p2 e2 r).estado := by
  unfold paso4Factura
  cases esf
  · simp only [if_neg Bool.false_ne_true]
    split
    · rw [finalizar_estado, finalizar_estado]
    · rw [finalizar_estado, finalizar_estado]
  · simp only [if_pos rfl, if_true]
    cases sri with
    | error e => rfl
    | ok sal =>
      obtain ⟨ef, autz, errs⟩ := sal
      cases autz with
      | none => rfl
      | some aut => rw [finalizar_estado, finalizar_estado]

lemma paso4_etapas_mono (esf eef : Bool) (amb fn : String)
    (sri : Except String SalidaSRI) (p : Except String String)
    (er : Except String Unit) (r : ResultadoFactura) (e : Etapa)
    (h : e ∈ r.etapas) : e ∈ (paso4Factura esf eef amb fn sri p er r).etapas := by
  unfold paso4Factura
  cases esf
  · simp only [if_neg Bool.false_ne_true]
    split <;> exact finalizar_etapas_mono _ _ _ _ _ h
  · simp only [if_pos rfl, if_true]
    cases sri with
    | error e2 => simp [manejarExcepcion, List.mem_append, h]
    | ok sal =>
      obtain ⟨ef, autz, errs⟩ := sal
      cases autz with
      | none => simp [manejarExcepcion, List.mem_append, h]
      | some aut =>
        exact finalizar_etapas_mono _ _ _ _ _ (by simp [List.mem_append, h])

lemma paso4_errores_pfx (esf eef : Bool) (amb fn : String)
    (sri : Except String SalidaSRI) (p : Except String String)
    (er : Except String Unit) (r : ResultadoFactura) :
    ∃ resto, (paso4Factura esf eef amb fn sri p er r).errores =
      r.errores ++ resto := by
  unfold paso4Factura
  cases esf
  · simp only [if_neg Bool.false_ne_true]
    split <;> exact ⟨[], by rw [finalizar_errores, List.append_nil]⟩
  · simp only [if_pos rfl, if_true]
    cases sri with
    | error e2 => exact ⟨_, rfl⟩
    | ok sal =>
      obtain ⟨ef, autz, errs⟩ := sal
      cases autz with
      | none => exact ⟨_, rfl⟩
      | some aut => exact ⟨errs, by rw [finalizar_errores]⟩

lemma paso4_errores_pfx2 (esf eef : Bool) (amb fn : String)
    (sri : Except String SalidaSRI) (p : Except String String)
    (er : Except String Unit) (r : ResultadoFactura) (pre : List String)
    (h : ∃ r0, r.errores = pre ++ r0) :
    ∃ resto, (paso4Factura esf eef amb fn sri p er r).errores =
      pre ++ resto := by
  obtain ⟨r0, h0⟩ := h
  obtain ⟨r1, h1⟩ := paso4_errores_pfx esf eef amb fn sri p er r
  exact ⟨r0 ++ r1, by rw [h1, h0, List.append_assoc]⟩

lemma paso4_pdf_etapa (esf eef : Bool) (amb fn : String)
    (sri : Except String SalidaSRI) (p : Except String String)
    (er : Except String Unit) (r : ResultadoFactura)
    (h : esf = true → ∃ sal aut, sri = Except.ok sal ∧
      sal.autorizacion = some aut) :
    Etapa.generarPdf ∈ (paso4Factura esf eef amb fn sri p er r).etapas := by
  unfold paso4Factura
  cases esf
  · simp only [if_neg Bool.false_ne_true]
    split <;> exact finalizar_pdf_etapa _ _ _ _
  · obtain ⟨sal, aut, hok, hsome⟩ := h rfl
    subst hok
    obtain ⟨ef, autz, errs⟩ := sal
    simp only at hsome
    subst hsome
    simp only [if_pos rfl, if_true]
    exact finalizar_pdf_etapa _ _ _ _

/-- C4 counterexample: a run whose SRI stage ends EN PROCESO — the document
has not reached AUTHORIZED — still generates the RIDE PDF and sends the
email, because steps 5 and 6 of procesar_factura run unconditionally after
step 4; the claim that PDF and email are dispatched only once the document
is AUTHORIZED is false on the code. -/
theorem c4_contraejemplo :
    (procesarFactura "1" true true true "X" "K" "N" true []
        (Except.ok "SX")
        (Except.ok ⟨"EN PROCESO", some ⟨"EN PROCESO", "", "", ""⟩, []⟩)
        (Except.ok "PDF") (Except.ok ()) "f").estado = "EN PROCESO" ∧
    (procesarFactura "1" true true true "X" "K" "N" true []
        (Except.ok "SX")
        (Except.ok ⟨"EN PROCESO", some ⟨"EN PROCESO", "", "", ""⟩, []⟩)
        (Except.ok "PDF") (Except.ok ()) "f").pdf = some "PDF" ∧
    "Email enviado" ∈
      (procesarFactura "1" true true true "X" "K" "N" true []
        (Except.ok "SX")
        (Except.ok ⟨"EN PROCESO", some ⟨"EN PROCESO", "", "", ""⟩, []⟩)
        (Except.ok "PDF") (Except.ok ()) "f").mensajes ∧
    (procesarFactura "1" true true true "X" "K" "N" true []
        (Except.ok "SX")
        (Except.ok ⟨"EN PROCESO", some ⟨"EN PROCESO", "", "", ""⟩, []⟩)
        (Except.ok "PDF") (Except.ok ()) "f").estado ≠ "autorizado" := by
  refine ⟨rfl, rfl, by decide, by decide⟩

/-- C4 as amended: PDF generation and email dispatch are attempted on every
run that completes the SRI step without a raised exception, whatever the
final state (an EN PROCESO run still gets both; a DEVUELTO run aborts only
because reading the None autorizacion entry raises AttributeError); and the
outcomes of PDF generation and email sending never change the document
state — the estado component of the result is identical for any PDF and
email outcomes, failures merely appending observational messages. -/
theorem c4_pdf_email_observacional (ambiente : String)
    (firmarFlag enviarSriFlag enviarEmailFlag : Bool)
    (xmlGenerado claveAcceso numeroFactura : String) (xsdValido : Bool)
    (erroresXsd : List String) (firmaRes : Except String String)
    (sriRes : Except String SalidaSRI) (fechaAhora : String) :
    (∀ p1 e1 p2 e2,
      (procesarFactura ambiente firmarFlag enviarSriFlag enviarEmailFlag
        xmlGenerado claveAcceso numeroFactura xsdValido erroresXsd firmaRes
        sriRes p1 e1 fechaAhora).estado =
      (procesarFactura ambiente firmarFlag enviarSriFlag enviarEmailFlag
        xmlGenerado claveAcceso numeroFactura xsdValido erroresXsd firmaRes
        sriRes p2 e2 fechaAhora).estado) ∧
    ((xsdValido = true ∨ ambiente = "1") →
     (firmarFlag = true → ∃ sx, firmaRes = Except.ok sx) →
     (enviarSriFlag = true → ∃ sal aut, sriRes = Except.ok sal ∧
        sal.autorizacion = some aut) →
     ∀ p e, Etapa.generarPdf ∈
       (procesarFactura ambiente firmarFlag enviarSriFlag enviarEmailFlag
         xmlGenerado claveAcceso numeroFactura xsdValido erroresXsd firmaRes
         sriRes p e fechaAhora).etapas) := by
  constructor
  · intro p1 e1 p2 e2
    unfold procesarFactura
    split
    · rfl
    · dsimp only
      cases firmarFlag
      · simp only [if_neg Bool.false_ne_true]
        exact paso4_estado_indep _ _ _ _ _ _ _ _ _ _
      · simp only [if_pos rfl, if_true]
        cases firmaRes with
        | error e => rfl
        | ok s => exact paso4_estado_indep _ _ _ _ _ _ _ _ _ _
  · intro hxsd hfir hsri p e
    unfold procesarFactura
    rw [if_neg (by
      rcases hxsd with h | h
      · rw [h]; simp
      · rw [h]; simp)]
    dsimp only
    cases firmarFlag
    · simp only [if_neg Bool.false_ne_true]
      exact paso4_pdf_etapa _ _ _ _ _ _ _ _ hsri
    · obtain ⟨sx, hok⟩ := hfir rfl
      subst hok
      simp only [if_pos rfl, if_true]
      exact paso4_pdf_etapa _ _ _ _ _ _ _ _ hsri

/-- Witness for the amended C4: a fully successful authorized run in the test
environment has the same estado whether or not the PDF and the email fail,
and the PDF stage runs. -/
theorem c4_pdf_email_observacional_witness :
    ((true : Bool) = true ∨ ("1" : String) = "1") ∧
    (procesarFactura "1" true true true "X" "K" "N" true []
        (Except.ok "SX")
        (Except.ok ⟨"AUTORIZADA", some ⟨"AUTORIZADA", "N-001", "f1", "xa"⟩, []⟩)
        (Except.ok "PDF") (Except.ok ()) "f").estado =
      (procesarFactura "1" true true true "X" "K" "N" true []
        (Except.ok "SX")
        (Except.ok ⟨"AUTORIZADA", some ⟨"AUTORIZADA", "N-001", "f1", "xa"⟩, []⟩)
        (Except.error "pdf roto") (Except.error "smtp roto") "f").estado ∧
    Etapa.generarPdf ∈
      (procesarFactura "1" true true true "X" "K" "N" true []
        (Except.ok "SX")
        (Except.ok ⟨"AUTORIZADA", some ⟨"AUTORIZADA", "N-001", "f1", "xa"⟩, []⟩)
        (Except.ok "PDF") (Except.ok ()) "f").etapas :=
  ⟨Or.inl rfl,
    (c4_pdf_email_observacional "1" true true true "X" "K" "N" true []
        (Except.ok "SX")
        (Except.ok ⟨"AUTORIZADA", some ⟨"AUTORIZADA", "N-001", "f1", "xa"⟩, []⟩)
        "f").1 (Except.ok "PDF") (Except.ok ())
        (Except.error "pdf roto") (Except.error "smtp roto"),
    (c4_pdf_email_observacional "1" true true true "X" "K" "N" true []
        (Except.ok "SX")
        (Except.ok ⟨"AUTORIZADA", some ⟨"AUTORIZADA", "N-001", "f1", "xa"⟩, []⟩)
        "f").2 (Or.inr rfl) (fun _ => ⟨"SX", rfl⟩)
        (fun _ => ⟨⟨"AUTORIZADA", some ⟨"AUTORIZADA", "N-001", "f1", "xa"⟩, []⟩,
          ⟨"AUTORIZADA", "N-001", "f1", "xa"⟩, rfl, rfl⟩)
        (Except.ok "PDF") (Except.ok ())⟩

/-- C8: a failed XSD validation is handled by environment — in production
("2") the run raises, ends with estado error, and neither the signing stage
nor any SRI call runs; in the test environment ("1") the errors are recorded
and the pipeline proceeds to the signing stage. -/
theorem c8_validacion_sensible_al_ambiente (ambiente : String)
    (firmarFlag enviarSriFlag enviarEmailFlag : Bool)
    (xmlGenerado claveAcceso numeroFactura : String)
    (erroresXsd : List String) (firmaRes : Except String String)
    (sriRes : Except String SalidaSRI) (pdfRes : Except String String)
    (emailRes : Except String Unit) (fechaAhora : String) :
    (ambiente = "2" →
      (procesarFactura ambiente firmarFlag enviarSriFlag enviarEmailFlag
        xmlGenerado claveAcceso numeroFactura false erroresXsd firmaRes sriRes
        pdfRes emailRes fechaAhora).estado = "error" ∧
      Etapa.firmarXml ∉
        (procesarFactura ambiente firmarFlag enviarSriFlag enviarEmailFlag
          xmlGenerado claveAcceso numeroFactura false erroresXsd firmaRes
          sriRes pdfRes emailRes fechaAhora).etapas ∧
      Etapa.enviarSri ∉
        (procesarFactura ambiente firmarFlag enviarSriFlag enviarEmailFlag
          xmlGenerado claveAcceso numeroFactura false erroresXsd firmaRes
          sriRes pdfRes emailRes fechaAhora).etapas) ∧
    (ambiente = "1" → firmarFlag = true →
      Etapa.firmarXml ∈
        (procesarFactura ambiente firmarFlag enviarSriFlag enviarEmailFlag
          xmlGenerado claveAcceso numeroFactura false erroresXsd firmaRes
          sriRes pdfRes emailRes fechaAhora).etapas ∧
      ∃ resto,
        (procesarFactura ambiente firmarFlag enviarSriFlag enviarEmailFlag
          xmlGenerado claveAcceso numeroFactura false erroresXsd firmaRes
          sriRes pdfRes emailRes fechaAhora).errores = erroresXsd ++ resto) := by
  constructor
  · intro hamb
    subst hamb
    unfold procesarFactura
    rw [if_pos ⟨rfl, by decide⟩]
    refine ⟨rfl, ?_, ?_⟩ <;> simp [manejarExcepcion]
  · intro hamb hflag
    subst hamb
    subst hflag
    unfold procesarFactura
    rw [if_neg (by simp)]
    simp only [if_neg Bool.false_ne_true, if_pos rfl, if_true]
    cases firmaRes with
    | error e =>
      constructor
      · simp [manejarExcepcion]
      · exact ⟨["Error al firmar: " ++ e], by simp [manejarExcepcion]⟩
    | ok s =>
      constructor
      · exact paso4_etapas_mono _ _ _ _ _ _ _ _ _ (by simp)
      · exact paso4_errores_pfx2 _ _ _ _ _ _ _ _ _ ⟨[], by simp⟩

/-- Witness for C8: with one XSD error, the production run ends in estado
error without signing, and the test run proceeds to signing with the error
recorded. -/
theorem c8_validacion_sensible_al_ambiente_witness :
    (("2" : String) = "2" ∧
      (procesarFactura "2" true true true "X" "K" "N" false ["e1"]
        (Except.ok "SX") (Except.error "no llamado") (Except.ok "PDF")
        (Except.ok ()) "f").estado = "error") ∧
    (("1" : String) = "1" ∧
      Etapa.firmarXml ∈
        (procesarFactura "1" true true true "X" "K" "N" false ["e1"]
          (Except.ok "SX") (Except.error "sri caido") (Except.ok "PDF")
          (Except.ok ()) "f").etapas) :=
  ⟨⟨rfl,
    ((c8_validacion_sensible_al_ambiente "2" true true true "X" "K" "N" ["e1"]
      (Except.ok "SX") (Except.error "no llamado") (Except.ok "PDF")
      (Except.ok ()) "f").1 rfl).1⟩,
   ⟨rfl,
    ((c8_validacion_sensible_al_ambiente "1" true true true "X" "K" "N" ["e1"]
      (Except.ok "SX") (Except.error "sri caido") (Except.ok "PDF")
      (Except.ok ()) "f").2 rfl rfl).1⟩⟩

/-- The Python exceptions that can traverse FirmaDigital._cargar_certificado:
the module's own ErrorFirmaDigital hierarchy, the raw xmlsec error, and the
NameError the interpreter raises when an except clause names an undefined
identifier. -/
inductive ExcPy where
  | certificadoNoEncontrado (msg : String)
  | contrasenaIncorrecta (msg : String)
  | certificadoVencido (msg : String)
  | firmaDigitalErr (msg : String)
  | xmlsecError (msg : String)
  | nameError (msg : String)
  deriving Repr, DecidableEq

/-- What xmlsec.Key.from_memory produced for the PKCS#12 file: it raised, it
returned None, or it returned a key with or without a private part and with
an optional certificate object whose notAfter field is a string ("" when the
attribute is missing, which Python treats as falsy). -/
inductive ResultadoClave where
  | lanzaExcepcion (msg : String)
  | claveNula
  | clave (tienePrivada : Bool) (certificado : Option String)
  deriving Repr, DecidableEq

/-- From firma_digital.py, _parsear_fecha_certificado: strip a trailing Z,
strptime the first eight characters as %Y%m%d, returning None when that
fails (non-digits, short strings or out-of-range month/day). -/
def parsearFechaCertificado (s : String) : Option Nat :=
  let t := if s.data.getLast? = some 'Z' then s.data.dropLast else s.data
  match t.take 8 with
  | [y1, y2, y3, y4, m1, m2, d1, d2] =>
    if [y1, y2, y3, y4, m1, m2, d1, d2].all (fun c => c.isDigit) &&
       fechaValida (digitVal d1 * 10 + digitVal d2)
         (digitVal m1 * 10 + digitVal m2)
         (digitVal y1 * 1000 + digitVal y2 * 100 + digitVal y3 * 10 + digitVal y4) then
      some ((digitVal y1 * 1000 + digitVal y2 * 100 + digitVal y3 * 10 + digitVal y4)
        * 10000 + (digitVal m1 * 10 + digitVal m2) * 100
        + (digitVal d1 * 10 + digitVal d2))
    else none
  | _ => none

/-- The body of the try block of _cargar_certificado (firma_digital.py lines
117-152), including _validar_vencimiento: a None key raises
ContrasenaIncorrectaError, a key without private part raises
FirmaDigitalError, and a certificate whose parsed notAfter lies before now
(encoded YYYYMMDD) raises CertificadoVencidoError; unparseable dates are
swallowed by _validar_vencimiento's own except and validation is skipped. -/
def cuerpoCargarCertificado (clave : ResultadoClave) (ahora : Nat) :
    Except ExcPy Unit :=
  match clave with
  | ResultadoClave.lanzaExcepcion msg => Except.error (ExcPy.xmlsecError msg)
  | ResultadoClave.claveNula =>
    Except.error (ExcPy.contrasenaIncorrecta
      "No se pudo cargar el certificado. ¿Contraseña incorrecta?")
  | ResultadoClave.clave tienePrivada certificado =>
    if !tienePrivada then
      Except.error (ExcPy.firmaDigitalErr
        "El certificado no contiene una clave privada válida")
    else
      match certificado with
      | none => Except.ok ()
      | some notAfter =>
        if notAfter = "" then Except.ok ()
        else
          match parsearFechaCertificado notAfter with
          | none => Except.ok ()
          | some venc =>
            if ahora > venc then
              Except.error (ExcPy.certificadoVencido "Certificado vencido")
            else Except.ok ()

/-- The except-clause chain of _cargar_certificado (firma_digital.py lines
154-162).  The first clause re-raises ContrasenaIncorrectaError.  The second
clause is written `except CertificateError`, and CertificateError is defined
nowhere in the module or its imports, so for every other exception the
interpreter raises NameError while evaluating the clause — the
CertificadoVencidoError wrapper and the generic password/invalid branch
below it are unreachable. -/
def manejarExcepcionCertificado (e : ExcPy) : ExcPy :=
  match e with
  | ExcPy.contrasenaIncorrecta m => ExcPy.contrasenaIncorrecta m
  | _ => ExcPy.nameError "name CertificateError is not defined"

/-- From firma_digital.py, FirmaDigital._cargar_certificado: missing file
raises CertificadoNoEncontradoError before the try; otherwise the try body
runs under the except chain. -/
def cargarCertificado (existeArchivo : Bool) (clave : ResultadoClave)
    (ahora : Nat) : Except ExcPy Unit :=
  if !existeArchivo then
    Except.error (ExcPy.certificadoNoEncontrado "Certificado no encontrado")
  else
    match cuerpoCargarCertificado clave ahora with
    | Except.ok u => Except.ok u
    | Except.error e => Except.error (manejarExcepcionCertificado e)

/-- C9: the claim matches the code's own documented intent (docstrings:
"CertificadoVencidoError: Si el certificado está vencido"), but loading a
credential whose certificate expired on 2020-01-01 on 2026-02-22 raises
NameError — the except clause references the undefined name CertificateError
— not CertificadoVencidoError.  The run still ends with the document in the
error state before any SRI call, because _firmar_xml wraps every exception
into ErrorFirmaDigital and the orchestrator aborts before step 4. -/
theorem c9_certificado_vencido_nameerror :
    cuerpoCargarCertificado
        (ResultadoClave.clave true (some "20200101000000Z")) 20260222 =
      Except.error (ExcPy.certificadoVencido "Certificado vencido") ∧
    cargarCertificado true
        (ResultadoClave.clave true (some "20200101000000Z")) 20260222 =
      Except.error (ExcPy.nameError "name CertificateError is not defined") ∧
    (∀ m, ExcPy.nameError "name CertificateError is not defined" ≠
      ExcPy.certificadoVencido m) ∧
    (procesarFactura "1" true true true "X" "K" "N" true []
        (Except.error "NameError: name CertificateError is not defined")
        (Except.ok ⟨"AUTORIZADA", some ⟨"AUTORIZADA", "N-001", "f1", "xa"⟩, []⟩)
        (Except.ok "PDF") (Except.ok ()) "f").estado = "error" ∧
    Etapa.enviarSri ∉
      (procesarFactura "1" true true true "X" "K" "N" true []
        (Except.error "NameError: name CertificateError is not defined")
        (Except.ok ⟨"AUTORIZADA", some ⟨"AUTORIZADA", "N-001", "f1", "xa"⟩, []⟩)
        (Except.ok "PDF") (Except.ok ()) "f").etapas := by
  refine ⟨rfl, rfl, ?_, rfl, by decide⟩
  intro m h
  exact ExcPy.noConfusion h

end RepuestoControl
